import Mathlib

/-!
Verification development for the metabolic-syndrome meal-planner repository.

The Python sources are shallowly embedded:
* `src/metabolic_counselor/data/database.py` — patient repository and the
  metabolic-syndrome evaluation (`check_metabolic_syndrome`,
  `evaluate_risk_level`, and the `_check_*` helpers).  The SQLite store is
  modelled as a pair of query functions (`get_patient`, `get_latest_exam`),
  matching the spec's treatment of the data store as an external collaborator.
  Real-valued measurements are modelled as rationals, blood pressure as
  integers, and nullable columns as `Option`.
* `src/metabolic_counselor/services/requests.py` — request normalization
  (`_parse_date`, `_parse_calories`, `_parse_list`,
  `normalize_plan_request`, `normalize_revision`).  Python `ValueError`
  raising is modelled with `Except String`.  Calendar dates are modelled by
  their proleptic-Gregorian ordinal (exactly Python's `date.toordinal`), so
  date comparison and day arithmetic are plain `Nat` operations.
* `src/metabolic_counselor/cli/counselor.py` — the chunked plan generation
  `_generate_sequence`.  The generation backend (`MealPlanAgent.generate_plan`)
  is abstracted as a function producing the markdown text; the while loop is
  embedded as a fuel recursion whose fuel (`duration_days`) is provably
  sufficient, and an instrumented variant records the exact sequence of
  backend calls made.
-/

namespace MetabolicCounselor

/-! ### Calendar dates (Python `datetime.date`)

A date is represented by its proleptic Gregorian ordinal, 1 = 0001-01-01,
exactly as in CPython's `datetime.date.toordinal`.  Day differences and
`timedelta(days=k)` arithmetic are then ordinary `Nat` operations. -/

/-- Gregorian leap-year rule (Python `calendar.isleap`). -/
def isLeapYear (y : Nat) : Bool :=
  (y % 4 = 0 && y % 100 ≠ 0) || y % 400 = 0

/-- Month lengths for a (non-)leap year. -/
def monthLengths (leap : Bool) : List Nat :=
  [31, if leap then 29 else 28, 31, 30, 31, 30, 31, 31, 30, 31, 30, 31]

/-- Number of days in month `m` (1-based) of year `y`. -/
def daysInMonth (y m : Nat) : Nat :=
  ((monthLengths (isLeapYear y)).drop (m - 1)).headD 31

/-- Days in the months strictly before month `m` (1-based). -/
def daysBeforeMonth (leap : Bool) (m : Nat) : Nat :=
  ((monthLengths leap).take (m - 1)).sum

/-- Python `date(y, m, d).toordinal()`: day count since 0000-12-31. -/
def toOrdinal (y m d : Nat) : Nat :=
  365 * (y - 1) + (y - 1) / 4 + (y - 1) / 400 - (y - 1) / 100
    + daysBeforeMonth (isLeapYear y) m + d

/-- Number of days in year `y`. -/
def daysInYear (y : Nat) : Nat :=
  if isLeapYear y then 366 else 365

/-- Splits a 0-based day offset (counted from Jan 1 of year `y`) into the
containing year and the 0-based day within that year.  Fueled structural
recursion; the caller passes enough fuel for the kernel to evaluate. -/
def yearSplit : Nat → Nat → Nat → Nat × Nat
  | 0, y, n => (y, n)
  | fuel + 1, y, n =>
    if daysInYear y ≤ n then yearSplit fuel (y + 1) (n - daysInYear y) else (y, n)

/-- Splits a 0-based day offset within a year into (1-based month, 1-based day). -/
def monthSplit : List Nat → Nat → Nat → Nat × Nat
  | [], m, n => (m, n + 1)
  | len :: rest, m, n =>
    if len ≤ n then monthSplit rest (m + 1) (n - len) else (m, n + 1)

/-- Left-pads the decimal representation of `n` with zeros to width `w`. -/
def padZero (w n : Nat) : String :=
  let s := toString n
  String.mk (List.replicate (w - s.length) '0') ++ s

/-- Python `date.fromordinal(ord).isoformat()`: the `YYYY-MM-DD` rendering of
an ordinal date. -/
def dateISO (ord : Nat) : String :=
  let n0 := ord - 1
  let ys := yearSplit (n0 / 365 + 1) 1 n0
  let md := monthSplit (monthLengths (isLeapYear ys.1)) 1 ys.2
  padZero 4 ys.1 ++ "-" ++ padZero 2 md.1 ++ "-" ++ padZero 2 md.2

/-! ### `data/database.py`: rows and the evaluation logic -/

/-- One row of the `patients` table (the columns `check_metabolic_syndrome`
reads). -/
structure PatientRow where
  patient_id : Int
  name : String
  sex : String
  age : Int
deriving DecidableEq

/-- One row of the `health_exams` table.  Any measurement column may be NULL. -/
structure HealthExam where
  exam_at : String
  waist_cm : Option ℚ
  systolic_mmHg : Option Int
  diastolic_mmHg : Option Int
  fbg_mg_dl : Option ℚ
  tg_mg_dl : Option ℚ
  hdl_mg_dl : Option ℚ
  bmi : Option ℚ
deriving DecidableEq

/-- The data-store collaborator: the two queries `check_metabolic_syndrome`
issues (`get_patient` and `get_latest_exam`), modelled as functions. -/
structure PatientDatabase where
  getPatient : Int → Option PatientRow
  getLatestExam : Int → Option HealthExam

/-- `PatientDatabase._check_abdominal_obesity`: NULL waist is not at risk;
otherwise waist ≥ 90 (sex `"남"`, male) or ≥ 85 (otherwise). -/
def checkAbdominalObesity (waist_cm : Option ℚ) (sex : String) : Bool :=
  match waist_cm with
  | none => false
  | some w => decide ((if sex = "남" then (90 : ℚ) else 85) ≤ w)

/-- `PatientDatabase._check_blood_pressure`: NULL in either component is not
at risk; otherwise systolic ≥ 130 or diastolic ≥ 85. -/
def checkBloodPressure (systolic_mmHg diastolic_mmHg : Option Int) : Bool :=
  match systolic_mmHg, diastolic_mmHg with
  | some s, some d => decide ((130 : Int) ≤ s) || decide ((85 : Int) ≤ d)
  | _, _ => false

/-- `PatientDatabase._check_fasting_glucose`: NULL is not at risk; otherwise
fasting glucose ≥ 100. -/
def checkFastingGlucose (fbg_mg_dl : Option ℚ) : Bool :=
  match fbg_mg_dl with
  | none => false
  | some v => decide ((100 : ℚ) ≤ v)

/-- `PatientDatabase._check_triglycerides`: NULL is not at risk; otherwise
triglycerides ≥ 150. -/
def checkTriglycerides (tg_mg_dl : Option ℚ) : Bool :=
  match tg_mg_dl with
  | none => false
  | some v => decide ((150 : ℚ) ≤ v)

/-- `PatientDatabase._check_hdl`: NULL is not at risk; otherwise HDL is
strictly below 40 (sex `"남"`, male) or 50 (otherwise). -/
def checkHdl (hdl_mg_dl : Option ℚ) (sex : String) : Bool :=
  match hdl_mg_dl with
  | none => false
  | some v => decide (v < (if sex = "남" then (40 : ℚ) else 50))

/-- The dictionary returned by `check_metabolic_syndrome`. -/
structure Diagnosis where
  patient_id : Int
  name : String
  sex : String
  age : Int
  exam_at : String
  criteria_met : Nat
  has_metabolic_syndrome : Bool
  abdominal_obesity : Bool
  high_blood_pressure : Bool
  high_fasting_glucose : Bool
  high_triglycerides : Bool
  low_hdl : Bool
  waist_cm : Option ℚ
  systolic_mmHg : Option Int
  diastolic_mmHg : Option Int
  fbg_mg_dl : Option ℚ
  tg_mg_dl : Option ℚ
  hdl_mg_dl : Option ℚ
  bmi : Option ℚ
deriving DecidableEq

/-- `PatientDatabase.check_metabolic_syndrome`: `None` when the patient or the
latest exam is absent; otherwise the five risk factors, their count, and the
3-of-5 diagnosis. -/
def checkMetabolicSyndrome (db : PatientDatabase) (patient_id : Int) :
    Option Diagnosis :=
  match db.getPatient patient_id with
  | none => none
  | some patient =>
    match db.getLatestExam patient_id with
    | none => none
    | some exam =>
      let sex := patient.sex
      let abdominal_obesity := checkAbdominalObesity exam.waist_cm sex
      let high_blood_pressure :=
        checkBloodPressure exam.systolic_mmHg exam.diastolic_mmHg
      let high_fasting_glucose := checkFastingGlucose exam.fbg_mg_dl
      let high_triglycerides := checkTriglycerides exam.tg_mg_dl
      let low_hdl := checkHdl exam.hdl_mg_dl sex
      let criteria_met :=
        abdominal_obesity.toNat + high_blood_pressure.toNat
          + high_fasting_glucose.toNat + high_triglycerides.toNat
          + low_hdl.toNat
      some
        { patient_id := patient_id
          name := patient.name
          sex := sex
          age := patient.age
          exam_at := exam.exam_at
          criteria_met := criteria_met
          has_metabolic_syndrome := decide (3 ≤ criteria_met)
          abdominal_obesity := abdominal_obesity
          high_blood_pressure := high_blood_pressure
          high_fasting_glucose := high_fasting_glucose
          high_triglycerides := high_triglycerides
          low_hdl := low_hdl
          waist_cm := exam.waist_cm
          systolic_mmHg := exam.systolic_mmHg
          diastolic_mmHg := exam.diastolic_mmHg
          fbg_mg_dl := exam.fbg_mg_dl
          tg_mg_dl := exam.tg_mg_dl
          hdl_mg_dl := exam.hdl_mg_dl
          bmi := exam.bmi }

/-- The dictionary returned by `evaluate_risk_level`. -/
structure RiskEvaluation where
  risk_level : String
  risk_score : Nat
  risk_label : String
  risk_description : String
deriving DecidableEq

/-- The score-to-tier branch of `PatientDatabase.evaluate_risk_level`
(the `if score == 0: ... elif ... else: ...` chain, verbatim). -/
def riskFromScore (score : Nat) : RiskEvaluation :=
  if score = 0 then
    { risk_level := "low", risk_score := score, risk_label := "저위험"
      risk_description := "현재 대사증후군 위험 요인이 없습니다. 건강한 생활습관을 유지하세요." }
  else if score = 1 then
    { risk_level := "low", risk_score := score, risk_label := "저위험"
      risk_description := "1개의 위험 요인이 있습니다. 예방적 관리가 필요합니다." }
  else if score = 2 then
    { risk_level := "medium", risk_score := score, risk_label := "중위험"
      risk_description := "2개의 위험 요인이 있어 대사증후군 전단계입니다. 적극적인 생활습관 개선이 필요합니다." }
  else if score = 3 then
    { risk_level := "high", risk_score := score, risk_label := "고위험"
      risk_description := "대사증후군으로 진단됩니다. 의료진 상담 및 치료적 개입이 필요합니다." }
  else
    { risk_level := "high", risk_score := score, risk_label := "고위험"
      risk_description :=
        toString score ++ "개의 위험 요인이 있어 심혈관질환 위험이 매우 높습니다. 즉각적인 의학적 관리가 필요합니다." }

/-- `PatientDatabase.evaluate_risk_level`: `None` when the diagnosis is absent,
otherwise the tier derived from `criteria_met`. -/
def evaluateRiskLevel (db : PatientDatabase) (patient_id : Int) :
    Option RiskEvaluation :=
  match checkMetabolicSyndrome db patient_id with
  | none => none
  | some diagnosis => some (riskFromScore diagnosis.criteria_met)

/-! ### `services/requests.py`: input normalization -/

/-- `CounselorProfile` (a two-value string enum in the source). -/
inductive CounselorProfile where
  | medical
  | exercise
deriving DecidableEq

deriving instance DecidableEq for Except

/-- `True` exactly on `Except.error`. -/
def isErr {ε α : Type} : Except ε α → Bool
  | .error _ => true
  | .ok _ => false

/-- Python `str.strip()`: the string without leading and trailing whitespace.
(Implemented over the character list so that the kernel can evaluate it;
`String.trim` itself is positional and does not reduce.) -/
def strip (s : String) : String :=
  String.mk
    (((s.data.dropWhile Char.isWhitespace).reverse.dropWhile
      Char.isWhitespace).reverse)

/-- Python `str.split(sep)` for a one-character separator, on character
lists: `splitOnChar sep l` never returns `[]`, and splitting the empty string
yields `[[]]`. -/
def splitOnChar (sep : Char) (l : List Char) : List (List Char) :=
  l.foldr
    (fun c acc =>
      if c = sep then [] :: acc
      else
        match acc with
        | [] => [[c]]
        | grp :: rest => (c :: grp) :: rest)
    [[]]

/-- Python `str.split(sep)` for a one-character separator. -/
def splitString (sep : Char) (s : String) : List String :=
  (splitOnChar sep s.data).map String.mk

/-- Python `str.replace(old, new)` for one-character arguments. -/
def replaceChar (old new : Char) (s : String) : String :=
  String.mk (s.data.map fun c => if c = old then new else c)

/-- The numeric value of a digit string (Python `int` on a string of
decimal digits). -/
def digitsToNat (l : List Char) : Nat :=
  l.foldl (fun n c => 10 * n + (c.toNat - 48)) 0

/-- The day field of `strptime`'s `%d`: either one or two decimal digits with
value 1–31 (CPython pattern `3[01]|[12]\d|0[1-9]|[1-9]`) or a space followed
by a digit 1–9 (pattern `␣[1-9]`).  `none` when the text matches neither. -/
def dayParse (ds : String) : Option Nat :=
  match ds.data with
  | [' ', c] =>
    if c.isDigit && c ≠ '0' then some (c.toNat - 48) else none
  | _ =>
    if 1 ≤ ds.length && ds.length ≤ 2 && ds.data.all Char.isDigit then
      let d := digitsToNat ds.data
      if 1 ≤ d && d ≤ 31 then some d else none
    else none

/-- `requests._parse_date`: strips the input, then parses it with
`datetime.strptime(value, "%Y-%m-%d")` semantics, following CPython's
`_strptime` patterns — `%Y` is exactly four digits, `%m` is one or two digits
with value 1–12 (`1[0-2]|0[1-9]|[1-9]`), `%d` is as in `dayParse`, the whole
string is consumed, and the resulting calendar date must be constructible
(year ≥ 1, day within the month).  Returns the date's ordinal. -/
def parseDate (value : String) : Except String Nat :=
  let dateErr : Except String Nat :=
    .error "날짜는 YYYY-MM-DD 형식으로 입력해주세요."
  match splitString '-' (strip value) with
  | [ys, ms, ds] =>
    if ys.length = 4 && ys.data.all Char.isDigit
        && 1 ≤ ms.length && ms.length ≤ 2 && ms.data.all Char.isDigit
        && 1 ≤ digitsToNat ms.data && digitsToNat ms.data ≤ 12 then
      match dayParse ds with
      | none => dateErr
      | some d =>
        let y := digitsToNat ys.data
        let m := digitsToNat ms.data
        if 1 ≤ y && d ≤ daysInMonth y m then .ok (toOrdinal y m d)
        else dateErr
    else dateErr
  | _ => dateErr

/-- `requests._parse_calories`: blank input means "no target"; otherwise the
digits of the input are concatenated and read as an integer, which must lie
in [800, 4000]. -/
def parseCalories (value : String) : Except String (Option Nat) :=
  let v := strip value
  if v = "" then .ok none
  else
    let digits := v.data.filter Char.isDigit
    if digits = [] then .error "칼로리 값에서 숫자를 추출할 수 없습니다."
    else
      let calories := digitsToNat digits
      if 800 ≤ calories && calories ≤ 4000 then .ok (some calories)
      else .error "칼로리는 800kcal 이상 4000kcal 이하 범위로 입력해주세요."

/-- `requests._parse_list`: split every token on `,` (after replacing `;`
with `,`), trim, and drop empties, preserving order. -/
def parseList (tokens : List String) : List String :=
  tokens.flatMap fun token =>
    (splitString ',' (replaceChar ';' ',' token)).filterMap fun chunk =>
      let name := strip chunk
      if name = "" then none else some name

/-- `MealPlanRequest` (dates as ordinals, see `parseDate`). -/
structure MealPlanRequest where
  counselor_profile : CounselorProfile
  patient_id : Int
  start_date : Nat
  end_date : Nat
  target_calories : Option Nat
  preferred_foods : List String
  avoided_foods : List String
  snack_policy : String
  special_notes : String
deriving DecidableEq

/-- `MealPlanRequest.__post_init__`: construction fails when the start date is
after the end date. -/
def mkMealPlanRequest (counselor_profile : CounselorProfile) (patient_id : Int)
    (start_date end_date : Nat) (target_calories : Option Nat)
    (preferred_foods avoided_foods : List String)
    (snack_policy special_notes : String) : Except String MealPlanRequest :=
  if end_date < start_date then .error "기간의 시작일은 종료일보다 앞서야 합니다."
  else
    .ok
      { counselor_profile := counselor_profile
        patient_id := patient_id
        start_date := start_date
        end_date := end_date
        target_calories := target_calories
        preferred_foods := preferred_foods
        avoided_foods := avoided_foods
        snack_policy := snack_policy
        special_notes := special_notes }

/-- `MealPlanRequest.duration_days`: the inclusive day count
`(end - start).days + 1` (the requests constructed above satisfy
`start_date ≤ end_date`, where this equals the Python value). -/
def MealPlanRequest.duration_days (r : MealPlanRequest) : Nat :=
  r.end_date + 1 - r.start_date

/-- `RequestNormalizer.normalize_plan_request` (with the normalizer's default
snack policy as first argument; the CLI constructs `RequestNormalizer()`
whose default is `"포함"`). -/
def normalizePlanRequest (defaultSnackPolicy : String)
    (counselor_profile : CounselorProfile) (patient_id : Int)
    (start_date_str end_date_str calorie_text : String)
    (preferred_tokens avoided_tokens : List String)
    (snack_policy : Option String) (notes : String) :
    Except String MealPlanRequest := do
  let start ← parseDate start_date_str
  let endD ← parseDate end_date_str
  let calories ← parseCalories calorie_text
  let preferred := parseList preferred_tokens
  let avoided := parseList avoided_tokens
  let policy :=
    match snack_policy with
    | some s => if s = "" then defaultSnackPolicy else strip s
    | none => defaultSnackPolicy
  mkMealPlanRequest counselor_profile patient_id start endD calories
    preferred avoided (if policy = "" then defaultSnackPolicy else policy)
    (strip notes)

/-- `RevisionInstruction` (dates as ordinals). -/
structure RevisionInstruction where
  target_dates : List Nat
  meals_to_update : List String
  change_notes : String
deriving DecidableEq

/-- `RevisionInstruction.describe`. -/
def RevisionInstruction.describe (r : RevisionInstruction) : String :=
  let date_text := String.intercalate ", " (r.target_dates.map dateISO)
  let meals :=
    if r.meals_to_update.isEmpty then "전체"
    else String.intercalate ", " r.meals_to_update
  date_text ++ "의 " ++ meals ++ " 수정 요청: " ++ r.change_notes

/-- `RequestNormalizer.MEAL_LABELS`: the fixed four meal slots
(breakfast, lunch, dinner, snack). -/
def MEAL_LABELS : List String := ["아침", "점심", "저녁", "간식"]

/-- The meal candidates of `normalize_revision`: every meal token split on
`,`/`;`, trimmed, empties dropped, order preserved. -/
def mealCandidates (meal_tokens : List String) : List String :=
  meal_tokens.flatMap fun token =>
    (splitString ',' (replaceChar ';' ',' token)).filterMap fun label =>
      let candidate := strip label
      if candidate = "" then none else some candidate

/-- The error message raised for a meal token outside `MEAL_LABELS`. -/
def mealErrorMessage (candidate : String) : String :=
  "지원하지 않는 식사 구분입니다: " ++ candidate ++ " (허용: "
    ++ String.intercalate ", " MEAL_LABELS ++ ")"

/-- Left-to-right effectful map over `Except`, stopping at the first error —
the evaluation order of a Python list comprehension or `for` loop that can
raise. -/
def mapME {α β : Type} (f : α → Except String β) :
    List α → Except String (List β)
  | [] => .ok []
  | a :: l => (f a).bind fun x => (mapME f l).bind fun xs => .ok (x :: xs)

/-- The meal-validation loop of `normalize_revision`: each candidate must be
one of `MEAL_LABELS`; the first offender raises. -/
def collectMeals (meal_tokens : List String) : Except String (List String) :=
  mapME
    (fun candidate =>
      if MEAL_LABELS.contains candidate then Except.ok candidate
      else Except.error (mealErrorMessage candidate))
    (mealCandidates meal_tokens)

/-- `RequestNormalizer.normalize_revision`: blank notes raise; every
non-blank date token is parsed (the first malformed one raises); an empty
date list raises; every meal candidate must be a known label. -/
def normalizeRevision (date_tokens meal_tokens : List String)
    (change_notes : String) : Except String RevisionInstruction := do
  if strip change_notes = "" then
    Except.error "수정 지시 내용을 입력해주세요."
  else
    let target_dates ←
      mapME parseDate (date_tokens.filter fun t => !(strip t == ""))
    if target_dates.isEmpty then
      Except.error "수정 대상 날짜를 최소 1개 이상 입력해주세요."
    else
      let meals ← collectMeals meal_tokens
      Except.ok
        { target_dates := target_dates
          meals_to_update := meals
          change_notes := strip change_notes }

/-! ### `cli/counselor.py`: chunked plan generation (`_generate_sequence`)

The generation backend (`MealPlanAgent.generate_plan`) is an external
collaborator: it is abstracted by a function `gen` from the patient context,
the (chunk) request and the optional previous-chunk markdown to the markdown
text the LLM returns.  `agents/meal_plan.py` wraps that text into a
`MealPlanResult` with `mode="create"` and `metadata={"status": "created"}`. -/

/-- `MealPlanResult` (from `agents/meal_plan.py`). -/
structure MealPlanResult where
  markdown : String
  start_date : Nat
  end_date : Nat
  patient_id : Int
  mode : String
  metadata : List (String × String)
deriving DecidableEq

/-- The abstracted generation backend: patient context, request, optional
previous-chunk markdown ↦ generated markdown. -/
def Gen : Type := String → MealPlanRequest → Option String → String

/-- `MealPlanAgent.generate_plan`: wraps the backend text into a
`MealPlanResult`. -/
def generatePlan (gen : Gen) (patient_context : String)
    (request : MealPlanRequest) (previous_plan : Option String) :
    MealPlanResult :=
  { markdown := gen patient_context request previous_plan
    start_date := request.start_date
    end_date := request.end_date
    patient_id := request.patient_id
    mode := "create"
    metadata := [("status", "created")] }

/-- One backend invocation recorded during `_generate_sequence`: the chunk
request, the `previous_plan` continuity context passed, and the markdown
output obtained. -/
structure BackendCall where
  request : MealPlanRequest
  previous_plan : Option String
  output : String
deriving DecidableEq

/-- The `while current_start <= request.end_date` loop of
`_generate_sequence`, as fuel recursion (callers pass
`request.duration_days`, which is provably sufficient fuel when
`max_days ≥ 1`).  Each iteration takes the sub-range
`[current_start, min (current_start + max_days - 1) end]`, builds the chunk
request by `dataclasses.replace` of only the two dates, calls the backend
with the previous chunk's markdown, and continues on the next day. -/
def chunkLoop (gen : Gen) (ctx : String) (req : MealPlanRequest)
    (maxDays : Nat) : Nat → Nat → Option String → List BackendCall
  | 0, _, _ => []
  | fuel + 1, current_start, previous_markdown =>
    if current_start ≤ req.end_date then
      let current_end := min (current_start + (maxDays - 1)) req.end_date
      let chunk_request :=
        { req with start_date := current_start, end_date := current_end }
      let chunk_markdown := gen ctx chunk_request previous_markdown
      { request := chunk_request, previous_plan := previous_markdown
        output := chunk_markdown }
        :: chunkLoop gen ctx req maxDays fuel (current_end + 1)
            (some chunk_markdown)
    else []

/-- The sequence of backend invocations `_generate_sequence` performs: one
direct call when the request fits in `max(1, MAX_CHUNK_DAYS)` days, otherwise
the chunk loop starting at `request.start_date` with no continuity context. -/
def generateSequenceCalls (gen : Gen) (ctx : String) (maxChunkDays : Nat)
    (req : MealPlanRequest) : List BackendCall :=
  let maxDays := max 1 maxChunkDays
  if req.duration_days ≤ maxDays then
    [{ request := req, previous_plan := none, output := gen ctx req none }]
  else
    chunkLoop gen ctx req maxDays req.duration_days req.start_date none

/-- The section header prepended to each chunk's markdown
(`### {start.isoformat()} ~ {end.isoformat()}`). -/
def sectionHeader (start_date end_date : Nat) : String :=
  "### " ++ dateISO start_date ++ " ~ " ++ dateISO end_date

/-- `MealPlanCLI._generate_sequence`: direct delegation for short requests;
otherwise the chunk loop, whose outputs are merged with per-chunk headers,
joined by a blank line, with metadata recording the chunk count and the
chunk span. -/
def generateSequence (gen : Gen) (ctx : String) (maxChunkDays : Nat)
    (req : MealPlanRequest) : MealPlanResult :=
  let maxDays := max 1 maxChunkDays
  if req.duration_days ≤ maxDays then
    generatePlan gen ctx req none
  else
    let segments :=
      chunkLoop gen ctx req maxDays req.duration_days req.start_date none
    let combined_sections := segments.map fun seg =>
      String.intercalate "\n"
        [sectionHeader seg.request.start_date seg.request.end_date, "",
          seg.output]
    { markdown := String.intercalate "\n\n" combined_sections
      start_date := req.start_date
      end_date := req.end_date
      patient_id := req.patient_id
      mode := "create"
      metadata :=
        [("status", "created"), ("chunks", toString segments.length),
          ("chunk_span_days", toString maxDays)] }

/-! ### Sample data for witnesses -/

/-- A sample exam in which every factor is at risk. -/
def sampleExam : HealthExam :=
  { exam_at := "2024-03-02 09:00:00", waist_cm := some 95
    systolic_mmHg := some 135, diastolic_mmHg := some 90
    fbg_mg_dl := some 110, tg_mg_dl := some 160, hdl_mg_dl := some 35
    bmi := some 27 }

/-- A sample patient row. -/
def samplePatient : PatientRow :=
  { patient_id := 1, name := "김철수", sex := "남", age := 55 }

/-- A one-patient store holding `samplePatient` and `sampleExam`. -/
def sampleDB : PatientDatabase :=
  { getPatient := fun pid => if pid = 1 then some samplePatient else none
    getLatestExam := fun pid => if pid = 1 then some sampleExam else none }

/-- The diagnosis `check_metabolic_syndrome` produces on `sampleDB`. -/
def sampleDiagnosis : Diagnosis :=
  { patient_id := 1, name := "김철수", sex := "남", age := 55
    exam_at := "2024-03-02 09:00:00", criteria_met := 5
    has_metabolic_syndrome := true, abdominal_obesity := true
    high_blood_pressure := true, high_fasting_glucose := true
    high_triglycerides := true, low_hdl := true, waist_cm := some 95
    systolic_mmHg := some 135, diastolic_mmHg := some 90
    fbg_mg_dl := some 110, tg_mg_dl := some 160, hdl_mg_dl := some 35
    bmi := some 27 }

/-- An exam record with every measurement NULL. -/
def nullExam : HealthExam :=
  { exam_at := "2024-01-01", waist_cm := none, systolic_mmHg := none
    diastolic_mmHg := none, fbg_mg_dl := none, tg_mg_dl := none
    hdl_mg_dl := none, bmi := none }

/-- A one-patient store whose only exam has every measurement NULL. -/
def nullExamDB : PatientDatabase :=
  { getPatient := fun pid => if pid = 1 then some samplePatient else none
    getLatestExam := fun pid => if pid = 1 then some nullExam else none }

/-- The diagnosis `check_metabolic_syndrome` produces on `nullExamDB`. -/
def nullDiagnosis : Diagnosis :=
  { patient_id := 1, name := "김철수", sex := "남", age := 55
    exam_at := "2024-01-01", criteria_met := 0
    has_metabolic_syndrome := false, abdominal_obesity := false
    high_blood_pressure := false, high_fasting_glucose := false
    high_triglycerides := false, low_hdl := false, waist_cm := none
    systolic_mmHg := none, diastolic_mmHg := none, fbg_mg_dl := none
    tg_mg_dl := none, hdl_mg_dl := none, bmi := none }

/-! ### Claim theorems: risk evaluation (C1, C2, C3, C8, C5) -/

/-- Counting `true` among five booleans: the sum of the `toNat`s, its range,
and the 3-of-5 threshold test. -/
lemma count_five_bools (a b c d e : Bool) :
    a.toNat + b.toNat + c.toNat + d.toNat + e.toNat
      = [a, b, c, d, e].count true ∧
    a.toNat + b.toNat + c.toNat + d.toNat + e.toNat ≤ 5 ∧
    (decide (3 ≤ a.toNat + b.toNat + c.toNat + d.toNat + e.toNat) = true ↔
      3 ≤ a.toNat + b.toNat + c.toNat + d.toNat + e.toNat) := by
  cases a <;> cases b <;> cases c <;> cases d <;> cases e <;> decide

/-- C1: for every patient with a latest exam record, the diagnosis produced
by `check_metabolic_syndrome` has `criteria_met` equal to the number of true
factors among the five fixed risk factors, `criteria_met` lies in [0, 5], and
`has_metabolic_syndrome` holds iff `criteria_met ≥ 3`. -/
theorem c1_three_of_five_rule (db : PatientDatabase) (pid : Int)
    (d : Diagnosis) (h : checkMetabolicSyndrome db pid = some d) :
    d.criteria_met
      = [d.abdominal_obesity, d.high_blood_pressure, d.high_fasting_glucose,
          d.high_triglycerides, d.low_hdl].count true ∧
    d.criteria_met ≤ 5 ∧
    (d.has_metabolic_syndrome = true ↔ 3 ≤ d.criteria_met) := by
  rw [checkMetabolicSyndrome] at h
  cases hp : db.getPatient pid with
  | none => rw [hp] at h; cases h
  | some patient =>
    cases he : db.getLatestExam pid with
    | none => rw [hp, he] at h; cases h
    | some exam =>
      rw [hp, he] at h
      obtain rfl := (Option.some.inj h).symm
      exact count_five_bools _ _ _ _ _

/-- Witness for C1 on the concrete store `sampleDB`. -/
theorem c1_three_of_five_rule_witness :
    sampleDiagnosis.criteria_met
      = [sampleDiagnosis.abdominal_obesity,
          sampleDiagnosis.high_blood_pressure,
          sampleDiagnosis.high_fasting_glucose,
          sampleDiagnosis.high_triglycerides,
          sampleDiagnosis.low_hdl].count true ∧
    sampleDiagnosis.criteria_met ≤ 5 ∧
    (sampleDiagnosis.has_metabolic_syndrome = true ↔
      3 ≤ sampleDiagnosis.criteria_met) :=
  c1_three_of_five_rule sampleDB 1 sampleDiagnosis (by decide)

/-- C2: with all measurements present, each of the four `≥` factors is true
exactly when its measurement reaches its (sex-specific) threshold, `low_hdl`
is true exactly when HDL is strictly below the sex threshold, and a value
exactly at the threshold makes the four `≥` factors true and `low_hdl`
false. -/
theorem c2_factor_thresholds :
    (∀ w : ℚ, checkAbdominalObesity (some w) "남" = decide (90 ≤ w)) ∧
    (∀ w : ℚ, checkAbdominalObesity (some w) "여" = decide (85 ≤ w)) ∧
    (∀ s d : Int, checkBloodPressure (some s) (some d)
        = (decide (130 ≤ s) || decide (85 ≤ d))) ∧
    (∀ v : ℚ, checkFastingGlucose (some v) = decide (100 ≤ v)) ∧
    (∀ v : ℚ, checkTriglycerides (some v) = decide (150 ≤ v)) ∧
    (∀ v : ℚ, checkHdl (some v) "남" = decide (v < 40)) ∧
    (∀ v : ℚ, checkHdl (some v) "여" = decide (v < 50)) ∧
    checkAbdominalObesity (some 90) "남" = true ∧
    checkAbdominalObesity (some 85) "여" = true ∧
    checkBloodPressure (some 130) (some 0) = true ∧
    checkBloodPressure (some 0) (some 85) = true ∧
    checkFastingGlucose (some 100) = true ∧
    checkTriglycerides (some 150) = true ∧
    checkHdl (some 40) "남" = false ∧
    checkHdl (some 50) "여" = false := by
  refine ⟨?_, ?_, ?_, ?_, ?_, ?_, ?_, ?_, ?_, ?_, ?_, ?_, ?_, ?_, ?_⟩ <;>
    first
      | decide
      | (intro v; simp [checkAbdominalObesity, checkHdl, checkBloodPressure,
          checkFastingGlucose, checkTriglycerides])

/-- C3: a NULL measurement never raises and always evaluates its factor to
false, both at the level of the `_check_*` helpers (for blood pressure,
absence of either component suffices) and in the diagnosis produced by
`check_metabolic_syndrome`.  (In the embedding all evaluators are total
functions, so no error is possible.) -/
theorem c3_null_measurement_is_false :
    (∀ sex : String, checkAbdominalObesity none sex = false) ∧
    (∀ d : Option Int, checkBloodPressure none d = false) ∧
    (∀ s : Option Int, checkBloodPressure s none = false) ∧
    checkFastingGlucose none = false ∧
    checkTriglycerides none = false ∧
    (∀ sex : String, checkHdl none sex = false) ∧
    (∀ db pid d exam, checkMetabolicSyndrome db pid = some d →
      db.getLatestExam pid = some exam →
      (exam.waist_cm = none → d.abdominal_obesity = false) ∧
      (exam.systolic_mmHg = none ∨ exam.diastolic_mmHg = none →
        d.high_blood_pressure = false) ∧
      (exam.fbg_mg_dl = none → d.high_fasting_glucose = false) ∧
      (exam.tg_mg_dl = none → d.high_triglycerides = false) ∧
      (exam.hdl_mg_dl = none → d.low_hdl = false)) := by
  refine ⟨fun _ => rfl, ?_, ?_, rfl, rfl, fun _ => rfl, ?_⟩
  · rintro (_ | d) <;> rfl
  · rintro (_ | s) <;> rfl
  · intro db pid d exam h he
    rw [checkMetabolicSyndrome] at h
    cases hp : db.getPatient pid with
    | none => rw [hp] at h; cases h
    | some patient =>
      rw [hp, he] at h
      obtain rfl := (Option.some.inj h).symm
      refine ⟨?_, ?_, ?_, ?_, ?_⟩
      · intro hw; simp [hw, checkAbdominalObesity]
      · rintro (hs | hs) <;> simp [hs, checkBloodPressure]
      · intro hw; simp [hw, checkFastingGlucose]
      · intro hw; simp [hw, checkTriglycerides]
      · intro hw; simp [hw, checkHdl]

/-- Witness for C3 on the concrete store `nullExamDB`, whose exam has every
measurement NULL. -/
theorem c3_null_measurement_is_false_witness :
    nullDiagnosis.abdominal_obesity = false ∧
    nullDiagnosis.high_blood_pressure = false ∧
    nullDiagnosis.high_fasting_glucose = false ∧
    nullDiagnosis.high_triglycerides = false ∧
    nullDiagnosis.low_hdl = false := by
  obtain ⟨h1, h2, h3, h4, h5⟩ :=
    c3_null_measurement_is_false.2.2.2.2.2.2 nullExamDB 1 nullDiagnosis
      nullExam (by decide) (by decide)
  exact ⟨h1 rfl, h2 (Or.inl rfl), h3 rfl, h4 rfl, h5 rfl⟩

/-- C8: `check_metabolic_syndrome` reports "not found" (returns `None`)
exactly when the patient id is absent from the store or the patient has no
exam record; being a total function of the two queries, no other error can
escape. -/
theorem c8_not_found (db : PatientDatabase) (pid : Int) :
    checkMetabolicSyndrome db pid = none ↔
      db.getPatient pid = none ∨ db.getLatestExam pid = none := by
  rw [checkMetabolicSyndrome]
  cases hp : db.getPatient pid with
  | none => simp
  | some patient =>
    cases he : db.getLatestExam pid with
    | none => simp
    | some exam => simp

/-- C5: the risk tier is a pure function of the factor count — the evaluation
maps the diagnosis through `riskFromScore`, whose values are: 0 → low with
the no-factor description, 1 → low with the one-factor description,
2 → medium (pre-syndrome), 3 → high (diagnosed), and ≥ 4 → high with a
description that starts with the literal count. -/
theorem c5_risk_tier_mapping :
    (∀ db pid d, checkMetabolicSyndrome db pid = some d →
        evaluateRiskLevel db pid = some (riskFromScore d.criteria_met)) ∧
    riskFromScore 0
      = { risk_level := "low", risk_score := 0, risk_label := "저위험"
          risk_description := "현재 대사증후군 위험 요인이 없습니다. 건강한 생활습관을 유지하세요." } ∧
    riskFromScore 1
      = { risk_level := "low", risk_score := 1, risk_label := "저위험"
          risk_description := "1개의 위험 요인이 있습니다. 예방적 관리가 필요합니다." } ∧
    riskFromScore 2
      = { risk_level := "medium", risk_score := 2, risk_label := "중위험"
          risk_description := "2개의 위험 요인이 있어 대사증후군 전단계입니다. 적극적인 생활습관 개선이 필요합니다." } ∧
    riskFromScore 3
      = { risk_level := "high", risk_score := 3, risk_label := "고위험"
          risk_description := "대사증후군으로 진단됩니다. 의료진 상담 및 치료적 개입이 필요합니다." } ∧
    (∀ s, 4 ≤ s → riskFromScore s
      = { risk_level := "high", risk_score := s, risk_label := "고위험"
          risk_description := toString s
            ++ "개의 위험 요인이 있어 심혈관질환 위험이 매우 높습니다. 즉각적인 의학적 관리가 필요합니다." }) := by
  refine ⟨?_, by decide, by decide, by decide, by decide, ?_⟩
  · intro db pid d h
    rw [evaluateRiskLevel, h]
  · intro s hs
    rw [riskFromScore]
    rw [if_neg (by omega), if_neg (by omega), if_neg (by omega),
      if_neg (by omega)]

/-- Witness for C5: the tier on `sampleDB` (count 5) and the count-4 tier. -/
theorem c5_risk_tier_mapping_witness :
    evaluateRiskLevel sampleDB 1 = some (riskFromScore 5) ∧
    riskFromScore 4
      = { risk_level := "high", risk_score := 4, risk_label := "고위험"
          risk_description := toString 4
            ++ "개의 위험 요인이 있어 심혈관질환 위험이 매우 높습니다. 즉각적인 의학적 관리가 필요합니다." } :=
  ⟨c5_risk_tier_mapping.1 sampleDB 1 sampleDiagnosis (by decide),
    c5_risk_tier_mapping.2.2.2.2.2 4 (by decide)⟩

/-! ### Claim theorems: plan-request normalization (C6, C10) -/

/-- `normalize_plan_request` as its underlying `Except.bind` chain. -/
lemma normalizePlanRequest_eq (dflt : String) (profile : CounselorProfile)
    (pid : Int) (s1 s2 cal : String) (pT aT : List String)
    (snack : Option String) (notes : String) :
    normalizePlanRequest dflt profile pid s1 s2 cal pT aT snack notes
      = (parseDate s1).bind fun start =>
        (parseDate s2).bind fun endD =>
        (parseCalories cal).bind fun calories =>
        mkMealPlanRequest profile pid start endD calories
          (parseList pT) (parseList aT)
          (let policy :=
            match snack with
            | some s => if s = "" then dflt else strip s
            | none => dflt
          if policy = "" then dflt else policy)
          (strip notes) :=
  rfl

/-- Stripping only removes characters: membership in the stripped string
implies membership in the original. -/
lemma strip_data_subset (s : String) : ∀ c ∈ (strip s).data, c ∈ s.data := by
  intro c hc
  simp only [strip] at hc
  rw [List.mem_reverse] at hc
  have h1 := (List.dropWhile_sublist
    (l := (s.data.dropWhile Char.isWhitespace).reverse)
    (p := Char.isWhitespace)).subset hc
  rw [List.mem_reverse] at h1
  exact (List.dropWhile_sublist (l := s.data)
    (p := Char.isWhitespace)).subset h1

/-- C6: `normalize_plan_request` parses `"1800kcal"` to `target_calories =
1800`; it fails on `"700kcal"`, on non-blank calorie text without digits, on
parsed calories outside [800, 4000] (no such value can succeed), on any date
that fails `YYYY-MM-DD` parsing, and on a start date after the end date. -/
theorem c6_plan_request_validation (dflt : String)
    (profile : CounselorProfile) (pid : Int) (pT aT : List String)
    (snack : Option String) (notes : String) :
    (Except.map MealPlanRequest.target_calories
        (normalizePlanRequest dflt profile pid "2024-05-01" "2024-05-03"
          "1800kcal" pT aT snack notes) = .ok (some 1800)) ∧
    (∀ s1 s2 : String,
      isErr (normalizePlanRequest dflt profile pid s1 s2 "700kcal"
        pT aT snack notes) = true) ∧
    (∀ cal : String, strip cal ≠ "" → (∀ c ∈ cal.data, c.isDigit = false) →
      isErr (normalizePlanRequest dflt profile pid "2024-05-01" "2024-05-03"
        cal pT aT snack notes) = true) ∧
    (∀ cal n, parseCalories cal = .ok (some n) → 800 ≤ n ∧ n ≤ 4000) ∧
    (∀ cal, isErr (parseCalories cal) = true →
      isErr (normalizePlanRequest dflt profile pid "2024-05-01" "2024-05-03"
        cal pT aT snack notes) = true) ∧
    (∀ s1 s2 cal : String,
      isErr (parseDate s1) = true ∨ isErr (parseDate s2) = true →
      isErr (normalizePlanRequest dflt profile pid s1 s2 cal pT aT snack
        notes) = true) ∧
    (∀ s1 s2 cal d1 d2, parseDate s1 = .ok d1 → parseDate s2 = .ok d2 →
      d2 < d1 →
      isErr (normalizePlanRequest dflt profile pid s1 s2 cal pT aT snack
        notes) = true) := by
  have hcal : ∀ s1 s2 cal, isErr (parseCalories cal) = true →
      isErr (normalizePlanRequest dflt profile pid s1 s2 cal pT aT snack
        notes) = true := by
    intro s1 s2 cal h
    rw [normalizePlanRequest_eq]
    cases h1 : parseDate s1 with
    | error e => rfl
    | ok a =>
      cases h2 : parseDate s2 with
      | error e => rfl
      | ok b =>
        cases h3 : parseCalories cal with
        | error e => rfl
        | ok c => rw [h3] at h; cases h
  refine ⟨rfl, ?_, ?_, ?_, fun cal h => hcal _ _ cal h, ?_, ?_⟩
  · intro s1 s2
    exact hcal s1 s2 "700kcal" rfl
  · intro cal hne hdig
    refine hcal _ _ cal ?_
    rw [parseCalories]
    rw [if_neg hne]
    have hnil : (strip cal).data.filter Char.isDigit = [] := by
      apply List.filter_eq_nil_iff.mpr
      intro c hc
      rw [hdig c (strip_data_subset cal c hc)]
      simp
    simp only [hnil]
    rfl
  · intro cal n h
    rw [parseCalories] at h
    split at h
    · cases h
    · dsimp only at h
      split at h
      · cases h
      · split at h
        · rename_i hrange
          have hn := Option.some.inj (Except.ok.inj h)
          rw [← hn]
          simpa using hrange
        · cases h
  · intro s1 s2 cal h
    rw [normalizePlanRequest_eq]
    rcases h with h | h
    · cases h1 : parseDate s1 with
      | error e => rfl
      | ok a => rw [h1] at h; cases h
    · cases h1 : parseDate s1 with
      | error e => rfl
      | ok a =>
        cases h2 : parseDate s2 with
        | error e => rfl
        | ok b => rw [h2] at h; cases h
  · intro s1 s2 cal d1 d2 h1 h2 hlt
    rw [normalizePlanRequest_eq, h1, h2]
    cases h3 : parseCalories cal with
    | error e => rfl
    | ok c =>
      show isErr (mkMealPlanRequest _ _ _ _ _ _ _ _ _) = true
      rw [mkMealPlanRequest, if_pos hlt]
      rfl

/-- Witness for C6: start `"2024-05-03"` after end `"2024-05-01"` is
rejected. -/
theorem c6_plan_request_validation_witness :
    isErr (normalizePlanRequest "포함" CounselorProfile.medical 1
      "2024-05-03" "2024-05-01" "1800kcal" [] [] none "") = true :=
  (c6_plan_request_validation "포함" CounselorProfile.medical 1 [] [] none
    "").2.2.2.2.2.2 "2024-05-03" "2024-05-01" "1800kcal" _ _ rfl rfl
    (by decide)

/-- C10: blank (empty or all-whitespace) calorie text never raises — it
yields `target_calories = None`; the no-digits error applies only to
non-blank text. -/
theorem c10_blank_calorie_text (dflt : String) (profile : CounselorProfile)
    (pid : Int) (pT aT : List String) (snack : Option String)
    (notes : String) (s : String) (h : strip s = "") :
    parseCalories s = .ok none ∧
    Except.map MealPlanRequest.target_calories
      (normalizePlanRequest dflt profile pid "2024-05-01" "2024-05-03" s
        pT aT snack notes) = .ok none := by
  have h1 : parseCalories s = .ok none := by rw [parseCalories, if_pos h]
  refine ⟨h1, ?_⟩
  simp only [normalizePlanRequest_eq, h1]
  rfl

/-- Witness for C10 at the whitespace-only calorie text `" "`. -/
theorem c10_blank_calorie_text_witness :
    parseCalories " " = .ok none ∧
    Except.map MealPlanRequest.target_calories
      (normalizePlanRequest "포함" CounselorProfile.medical 1 "2024-05-01"
        "2024-05-03" " " [] [] none "") = .ok none :=
  c10_blank_calorie_text "포함" CounselorProfile.medical 1 [] [] none "" " "
    rfl

/-! ### Claim theorems: revision normalization (C7) -/

/-- `pat` occurs as a contiguous substring of `s`. -/
def strIncludes (s pat : String) : Prop := pat.data <:+: s.data

/-- The per-candidate body of the meal-validation loop. -/
def mealGuard : String → Except String String := fun candidate =>
  if MEAL_LABELS.contains candidate then Except.ok candidate
  else Except.error (mealErrorMessage candidate)

/-- `collectMeals` is the guard mapped over the candidates. -/
lemma collectMeals_eq (mt : List String) :
    collectMeals mt = mapME mealGuard (mealCandidates mt) := rfl

/-- `normalize_revision` as its underlying `Except.bind` chain. -/
lemma normalizeRevision_eq (dt mt : List String) (notes : String) :
    normalizeRevision dt mt notes
      = if strip notes = "" then .error "수정 지시 내용을 입력해주세요."
        else
          (mapME parseDate (dt.filter fun t => !(strip t == ""))).bind
            fun target_dates =>
              if target_dates.isEmpty then
                .error "수정 대상 날짜를 최소 1개 이상 입력해주세요."
              else
                (collectMeals mt).bind fun meals =>
                  .ok { target_dates := target_dates
                        meals_to_update := meals
                        change_notes := strip notes } :=
  rfl

/-- `mapME` errors exactly when some element errors. -/
lemma isErr_mapME {α β : Type} (f : α → Except String β) (l : List α) :
    isErr (mapME f l) = true ↔ ∃ x ∈ l, isErr (f x) = true := by
  induction l with
  | nil =>
    constructor
    · intro h; exact Bool.noConfusion h
    · rintro ⟨y, hy, _⟩; cases hy
  | cons a l ih =>
    cases hf : f a with
    | error e =>
      constructor
      · intro _
        exact ⟨a, List.mem_cons_self a l, by rw [hf]; rfl⟩
      · intro _
        show isErr (mapME f (a :: l)) = true
        simp only [mapME]
        rw [hf]
        rfl
    | ok x =>
      have hstep : mapME f (a :: l)
          = (mapME f l).bind fun xs => .ok (x :: xs) := by
        simp only [mapME]
        rw [hf]
        rfl
      cases hm : mapME f l with
      | error e2 =>
        have hL : isErr (mapME f (a :: l)) = true := by rw [hstep, hm]; rfl
        refine ⟨fun _ => ?_, fun _ => hL⟩
        obtain ⟨y, hy, hey⟩ := ih.mp (by rw [hm]; rfl)
        exact ⟨y, List.mem_cons_of_mem a hy, hey⟩
      | ok xs =>
        have hL : isErr (mapME f (a :: l)) = false := by rw [hstep, hm]; rfl
        constructor
        · intro h
          rw [hL] at h
          exact Bool.noConfusion h
        · rintro ⟨y, hy, hey⟩
          rcases List.mem_cons.mp hy with rfl | hy
          · rw [hf] at hey
            exact Bool.noConfusion hey
          · have h2 := ih.mpr ⟨y, hy, hey⟩
            rw [hm] at h2
            exact Bool.noConfusion h2

/-- A successful `mapME` yields an empty list exactly on an empty input. -/
lemma mapME_ok_nil {α β : Type} (f : α → Except String β) {l : List α}
    {ds : List β} (h : mapME f l = .ok ds) : ds = [] ↔ l = [] := by
  cases l with
  | nil =>
    obtain rfl := Except.ok.inj h
    simp
  | cons a l =>
    simp only [mapME] at h
    cases hf : f a with
    | error e => rw [hf] at h; cases h
    | ok x =>
      rw [hf] at h
      cases hm : mapME f l with
      | error e => rw [hm] at h; cases h
      | ok xs =>
        rw [hm] at h
        obtain rfl := (Except.ok.inj h).symm
        simp

/-- A successful meal-validation pass returns the candidates unchanged. -/
lemma mealGuard_ok {l ms : List String}
    (h : mapME mealGuard l = .ok ms) : ms = l := by
  induction l generalizing ms with
  | nil => exact (Except.ok.inj h).symm
  | cons a l ih =>
    simp only [mapME] at h
    cases hp : MEAL_LABELS.contains a with
    | false =>
      rw [show mealGuard a = .error (mealErrorMessage a) by
        rw [mealGuard, if_neg (by simpa using hp)]] at h
      cases h
    | true =>
      rw [show mealGuard a = .ok a by rw [mealGuard, if_pos hp]] at h
      cases hm : mapME mealGuard l with
      | error e => rw [hm] at h; cases h
      | ok xs =>
        rw [hm] at h
        obtain rfl := (Except.ok.inj h).symm
        rw [ih hm]

/-- The meal-validation pass raises on the first unknown candidate. -/
lemma mealGuard_first_bad {l : List String} {c : String}
    (h : l.find? (fun x => !MEAL_LABELS.contains x) = some c) :
    mapME mealGuard l = .error (mealErrorMessage c) := by
  induction l with
  | nil => cases h
  | cons a l ih =>
    rw [List.find?_cons] at h
    cases hp : MEAL_LABELS.contains a with
    | false =>
      rw [hp] at h
      simp only [Bool.not_false, if_pos] at h
      obtain rfl := Option.some.inj h
      simp only [mapME]
      rw [show mealGuard a = .error (mealErrorMessage a) by
        rw [mealGuard, if_neg (by simpa using hp)]]
      rfl
    | true =>
      rw [hp] at h
      simp only [Bool.not_true] at h
      have h2 := ih (by simpa using h)
      simp only [mapME]
      rw [show mealGuard a = .ok a by rw [mealGuard, if_pos hp], h2]
      rfl

/-- C7 (amended): `normalize_revision` fails exactly when the change notes
are blank, some non-blank date token fails to parse, no non-blank date token
is present, or some meal candidate is outside the four-label enum; when the
failure is an unknown meal candidate the error message names the offending
token and the allowed labels; on success it returns the parsed dates, the
accepted meal labels in input order, and the trimmed notes.  (The original
claim's "no date token parses" is too weak: one malformed non-blank token
raises even when another token parses, see the counterexample.) -/
theorem c7_revision_validation (dateTokens mealTokens : List String)
    (notes : String) :
    (isErr (normalizeRevision dateTokens mealTokens notes) = true ↔
      (strip notes = "" ∨
        (∃ t ∈ dateTokens, ¬strip t = "" ∧ isErr (parseDate t) = true) ∨
        (∀ t ∈ dateTokens, strip t = "") ∨
        (∃ c ∈ mealCandidates mealTokens, c ∉ MEAL_LABELS))) ∧
    (∀ r, normalizeRevision dateTokens mealTokens notes = .ok r →
      mapME parseDate (dateTokens.filter fun t => !(strip t == ""))
          = .ok r.target_dates ∧
      r.meals_to_update = mealCandidates mealTokens ∧
      r.change_notes = strip notes) ∧
    (strip notes ≠ "" →
      isErr (mapME parseDate (dateTokens.filter fun t => !(strip t == "")))
          = false →
      (dateTokens.filter fun t => !(strip t == "")) ≠ [] →
      ∀ c, (mealCandidates mealTokens).find?
          (fun x => !MEAL_LABELS.contains x) = some c →
        normalizeRevision dateTokens mealTokens notes
          = .error (mealErrorMessage c)) ∧
    (∀ c : String, strIncludes (mealErrorMessage c) c ∧
      strIncludes (mealErrorMessage c) "아침, 점심, 저녁, 간식") := by
  refine ⟨?_, ?_, ?_, ?_⟩
  · by_cases hn : strip notes = ""
    · refine iff_of_true ?_ (Or.inl hn)
      rw [normalizeRevision_eq, if_pos hn]
      rfl
    · rw [normalizeRevision_eq, if_neg hn]
      cases hm : mapME parseDate (dateTokens.filter fun t => !(strip t == ""))
        with
      | error e =>
        refine iff_of_true rfl (Or.inr (Or.inl ?_))
        obtain ⟨t, ht, het⟩ :=
          (isErr_mapME parseDate _).mp (by rw [hm]; rfl)
        rw [List.mem_filter] at ht
        exact ⟨t, ht.1, by simpa using ht.2, het⟩
      | ok ds =>
        cases hds : ds.isEmpty with
        | true =>
          refine iff_of_true ?_ (Or.inr (Or.inr (Or.inl ?_)))
          · show isErr (if ds.isEmpty then _ else _) = true
            rw [hds]
            rfl
          · have hdnil : ds = [] := List.isEmpty_iff.mp hds
            have hfnil := (mapME_ok_nil parseDate hm).mp hdnil
            intro t ht
            have h2 := List.filter_eq_nil_iff.mp hfnil t ht
            simpa using h2
        | false =>
          cases hc : collectMeals mealTokens with
          | error e =>
            refine iff_of_true ?_ (Or.inr (Or.inr (Or.inr ?_)))
            · show isErr (if ds.isEmpty then _ else _) = true
              rw [hds]
              rfl
            · have hcerr : isErr (mapME mealGuard (mealCandidates mealTokens))
                  = true := by
                rw [← collectMeals_eq, hc]
                rfl
              obtain ⟨c, hcm, hec⟩ := (isErr_mapME mealGuard _).mp hcerr
              refine ⟨c, hcm, ?_⟩
              intro hmem
              rw [show mealGuard c = .ok c by
                rw [mealGuard, if_pos (by simpa using hmem)]] at hec
              exact Bool.noConfusion hec
          | ok ms =>
            refine iff_of_false ?_ ?_
            · show ¬ isErr (if ds.isEmpty then _ else _) = true
              rw [hds]
              intro h
              exact Bool.noConfusion h
            · rintro (h | ⟨t, ht, hne, het⟩ | h | ⟨c, hcm, hnc⟩)
              · exact hn h
              · have hmem : t ∈ dateTokens.filter fun t => !(strip t == "") :=
                  List.mem_filter.mpr ⟨ht, by simp [hne]⟩
                have h2 := (isErr_mapME parseDate _).mpr ⟨t, hmem, het⟩
                rw [hm] at h2
                exact Bool.noConfusion h2
              · have hfnil : (dateTokens.filter fun t => !(strip t == ""))
                    = [] := by
                  apply List.filter_eq_nil_iff.mpr
                  intro t ht
                  simpa using h t ht
                have h2 := (mapME_ok_nil parseDate hm).mpr hfnil
                rw [h2] at hds
                exact Bool.noConfusion hds
              · have hgc : isErr (mealGuard c) = true := by
                  rw [show mealGuard c = .error (mealErrorMessage c) by
                    rw [mealGuard, if_neg (by simpa using hnc)]]
                  rfl
                have h2 := (isErr_mapME mealGuard _).mpr ⟨c, hcm, hgc⟩
                rw [← collectMeals_eq, hc] at h2
                exact Bool.noConfusion h2
  · intro r h
    rw [normalizeRevision_eq] at h
    by_cases hn : strip notes = ""
    · rw [if_pos hn] at h; cases h
    · rw [if_neg hn] at h
      cases hm : mapME parseDate (dateTokens.filter fun t => !(strip t == ""))
        with
      | error e => rw [hm] at h; cases h
      | ok ds =>
        rw [hm] at h
        have h2 : (if ds.isEmpty then
            (.error "수정 대상 날짜를 최소 1개 이상 입력해주세요." :
              Except String RevisionInstruction)
          else (collectMeals mealTokens).bind fun meals =>
            .ok { target_dates := ds, meals_to_update := meals
                  change_notes := strip notes }) = .ok r := h
        cases hds : ds.isEmpty with
        | true => rw [hds, if_pos rfl] at h2; cases h2
        | false =>
          rw [hds, if_neg Bool.false_ne_true] at h2
          cases hc : collectMeals mealTokens with
          | error e => rw [hc] at h2; cases h2
          | ok ms =>
            rw [hc] at h2
            obtain rfl := (Except.ok.inj h2)
            exact ⟨rfl, mealGuard_ok hc, rfl⟩
  · intro hn hok hLne c hfind
    obtain ⟨ds, hm⟩ : ∃ ds,
        mapME parseDate (dateTokens.filter fun t => !(strip t == ""))
          = .ok ds := by
      cases hmm : mapME parseDate
          (dateTokens.filter fun t => !(strip t == "")) with
      | error e => rw [hmm] at hok; exact Bool.noConfusion hok
      | ok ds => exact ⟨ds, rfl⟩
    rw [normalizeRevision_eq, if_neg hn, hm]
    have hds : ds.isEmpty = false := by
      cases hdd : ds.isEmpty with
      | false => rfl
      | true =>
        exact absurd ((mapME_ok_nil parseDate hm).mp
          (List.isEmpty_iff.mp hdd)) hLne
    show (if ds.isEmpty then _ else _) = _
    rw [hds]
    show (collectMeals mealTokens).bind _ = _
    rw [collectMeals_eq, mealGuard_first_bad hfind]
    rfl
  · intro c
    have hL : String.intercalate ", " MEAL_LABELS = "아침, 점심, 저녁, 간식" :=
      rfl
    constructor
    · refine ⟨"지원하지 않는 식사 구분입니다: ".data,
        (" (허용: " ++ String.intercalate ", " MEAL_LABELS ++ ")").data, ?_⟩
      simp [mealErrorMessage, String.data_append, List.append_assoc]
    · refine ⟨("지원하지 않는 식사 구분입니다: " ++ c ++ " (허용: ").data,
        ")".data, ?_⟩
      simp [mealErrorMessage, hL, String.data_append, List.append_assoc]

/-- Counterexample to C7 as stated: with date tokens
`["2024-05-01", "05/03"]`, no meal tokens and non-blank notes,
`normalize_revision` raises although the notes are non-blank, it is not the
case that no date token parses (the first one does), and no meal candidate is
outside the enum. -/
theorem c7_revision_validation_counterexample :
    ¬ (isErr (normalizeRevision ["2024-05-01", "05/03"] [] "변경") = true ↔
        (strip "변경" = "" ∨
          (∀ t ∈ (["2024-05-01", "05/03"] : List String),
            isErr (parseDate t) = true) ∨
          (∃ c ∈ mealCandidates ([] : List String), c ∉ MEAL_LABELS))) := by
  decide

/-- Witness for C7 (amended): the unknown meal token `"아점"` produces the
error message naming it and the allowed labels. -/
theorem c7_revision_validation_witness :
    normalizeRevision ["2024-05-01"] ["아점"] "메모"
      = .error (mealErrorMessage "아점") :=
  (c7_revision_validation ["2024-05-01"] ["아점"] "메모").2.2.1 (by decide)
    (by decide) (by decide) "아점" (by decide)

/-! ### Claim theorems: chunked generation (C4, C9) -/

/-- Past the end of the range, the loop does nothing (any fuel). -/
lemma chunkLoop_of_gt (gen : Gen) (ctx : String) (req : MealPlanRequest)
    (maxDays fuel cur : Nat) (prev : Option String)
    (h : req.end_date < cur) :
    chunkLoop gen ctx req maxDays fuel cur prev = [] := by
  cases fuel with
  | zero => rfl
  | succ fuel => simp only [chunkLoop]; rw [if_neg (by omega)]

/-- One unfolding of the loop while inside the range. -/
lemma chunkLoop_succ_of_le (gen : Gen) (ctx : String) (req : MealPlanRequest)
    (maxDays fuel cur : Nat) (prev : Option String)
    (hcur : cur ≤ req.end_date) :
    chunkLoop gen ctx req maxDays (fuel + 1) cur prev
      = { request := { req with start_date := cur, end_date := min (cur + (maxDays - 1)) req.end_date }, previous_plan := prev, output := gen ctx { req with start_date := cur, end_date := min (cur + (maxDays - 1)) req.end_date } prev }
        :: chunkLoop gen ctx req maxDays fuel
            (min (cur + (maxDays - 1)) req.end_date + 1)
            (some (gen ctx { req with start_date := cur, end_date := min (cur + (maxDays - 1)) req.end_date } prev)) := by
  simp only [chunkLoop]
  rw [if_pos hcur]

/-- With sufficient fuel and a non-empty range the loop emits a chunk. -/
lemma chunkLoop_ne_nil (gen : Gen) (ctx : String) (req : MealPlanRequest)
    (maxDays fuel cur : Nat) (prev : Option String)
    (hfuel : req.end_date + 1 - cur ≤ fuel) (hcur : cur ≤ req.end_date) :
    chunkLoop gen ctx req maxDays fuel cur prev ≠ [] := by
  cases fuel with
  | zero => omega
  | succ fuel =>
    rw [chunkLoop_succ_of_le gen ctx req maxDays fuel cur prev hcur]
    exact List.cons_ne_nil _ _

/-- The first chunk starts at the loop's entry day and is passed the entry
continuity context. -/
lemma chunkLoop_head (gen : Gen) (ctx : String) (req : MealPlanRequest)
    (maxDays fuel cur : Nat) (prev : Option String) (c : BackendCall)
    (h : (chunkLoop gen ctx req maxDays fuel cur prev).head? = some c) :
    c.request.start_date = cur ∧ c.previous_plan = prev := by
  cases fuel with
  | zero => cases h
  | succ fuel =>
    by_cases hcur : cur ≤ req.end_date
    · rw [chunkLoop_succ_of_le gen ctx req maxDays fuel cur prev hcur] at h
      obtain rfl := (Option.some.inj h).symm
      exact ⟨rfl, rfl⟩
    · rw [chunkLoop_of_gt gen ctx req maxDays (fuel + 1) cur prev
        (by omega)] at h
      cases h

/-- Range facts about every emitted chunk: it lies inside `[cur, end]`, spans
at most `maxDays` days, spans exactly `maxDays` days unless it reaches the
end, and differs from the original request only in its dates. -/
lemma chunkLoop_mem (gen : Gen) (ctx : String) (req : MealPlanRequest)
    (maxDays : Nat) (hm : 1 ≤ maxDays) :
    ∀ (fuel cur : Nat) (prev : Option String),
      req.end_date + 1 - cur ≤ fuel →
      ∀ c ∈ chunkLoop gen ctx req maxDays fuel cur prev,
        cur ≤ c.request.start_date ∧
        c.request.start_date ≤ c.request.end_date ∧
        c.request.end_date ≤ req.end_date ∧
        c.request.end_date + 1 - c.request.start_date ≤ maxDays ∧
        (c.request.end_date < req.end_date →
          c.request.end_date + 1 - c.request.start_date = maxDays) ∧
        c.request = { req with start_date := c.request.start_date, end_date := c.request.end_date } := by
  intro fuel
  induction fuel with
  | zero => intro cur prev _ c hc; cases hc
  | succ fuel ih =>
    intro cur prev hfuel c hc
    by_cases hcur : cur ≤ req.end_date
    · rw [chunkLoop_succ_of_le gen ctx req maxDays fuel cur prev hcur] at hc
      have hmin1 : min (cur + (maxDays - 1)) req.end_date ≤ req.end_date :=
        Nat.min_le_right _ _
      have hmin2 : min (cur + (maxDays - 1)) req.end_date
          ≤ cur + (maxDays - 1) := Nat.min_le_left _ _
      have hmin3 : cur ≤ min (cur + (maxDays - 1)) req.end_date :=
        le_min (by omega) hcur
      rcases List.mem_cons.mp hc with rfl | hc
      · refine ⟨le_refl _, hmin3, hmin1, ?_, ?_, rfl⟩
        · show min (cur + (maxDays - 1)) req.end_date + 1 - cur ≤ maxDays
          omega
        · intro hlt
          have hlt2 : min (cur + (maxDays - 1)) req.end_date
              < req.end_date := hlt
          show min (cur + (maxDays - 1)) req.end_date + 1 - cur = maxDays
          by_cases hle : cur + (maxDays - 1) ≤ req.end_date
          · rw [Nat.min_eq_left hle]
            omega
          · have heq : min (cur + (maxDays - 1)) req.end_date
                = req.end_date := Nat.min_eq_right (by omega)
            rw [heq] at hlt2
            exact absurd hlt2 (lt_irrefl _)
      · have h2 := ih (min (cur + (maxDays - 1)) req.end_date + 1) _
          (by omega) c hc
        exact ⟨by omega, h2.2.1, h2.2.2.1, h2.2.2.2.1, h2.2.2.2.2.1,
          h2.2.2.2.2.2⟩
    · rw [chunkLoop_of_gt gen ctx req maxDays (fuel + 1) cur prev
        (by omega)] at hc
      cases hc

/-- Adjacent chunks are gap-free (`next.start = prev.end + 1`) and each chunk
after the first receives the previous chunk's output as continuity
context. -/
lemma chunkLoop_chain (gen : Gen) (ctx : String) (req : MealPlanRequest)
    (maxDays : Nat) :
    ∀ (fuel cur : Nat) (prev : Option String),
      List.Chain'
        (fun a b => b.request.start_date = a.request.end_date + 1 ∧
          b.previous_plan = some a.output)
        (chunkLoop gen ctx req maxDays fuel cur prev) := by
  intro fuel
  induction fuel with
  | zero => intro cur prev; exact List.chain'_nil
  | succ fuel ih =>
    intro cur prev
    by_cases hcur : cur ≤ req.end_date
    · rw [chunkLoop_succ_of_le gen ctx req maxDays fuel cur prev hcur]
      refine List.chain'_cons'.mpr ⟨?_, ih _ _⟩
      intro b hb
      have h2 := chunkLoop_head gen ctx req maxDays fuel _ _ b hb
      exact ⟨h2.1, h2.2⟩
    · rw [chunkLoop_of_gt gen ctx req maxDays (fuel + 1) cur prev (by omega)]
      exact List.chain'_nil

/-- The last chunk ends exactly on the requested end date. -/
lemma chunkLoop_last (gen : Gen) (ctx : String) (req : MealPlanRequest)
    (maxDays : Nat) (hm : 1 ≤ maxDays) :
    ∀ (fuel cur : Nat) (prev : Option String),
      req.end_date + 1 - cur ≤ fuel → cur ≤ req.end_date →
      ∀ c ∈ (chunkLoop gen ctx req maxDays fuel cur prev).getLast?,
        c.request.end_date = req.end_date := by
  intro fuel
  induction fuel with
  | zero => intro cur prev hfuel hcur; omega
  | succ fuel ih =>
    intro cur prev hfuel hcur c hc
    rw [chunkLoop_succ_of_le gen ctx req maxDays fuel cur prev hcur] at hc
    revert hc
    generalize some (gen ctx { req with start_date := cur, end_date := min (cur + (maxDays - 1)) req.end_date } prev) = prev2
    intro hc
    have hmin1 : min (cur + (maxDays - 1)) req.end_date ≤ req.end_date :=
      Nat.min_le_right _ _
    have hmin3 : cur ≤ min (cur + (maxDays - 1)) req.end_date :=
      le_min (by omega) hcur
    cases hrest : chunkLoop gen ctx req maxDays fuel
        (min (cur + (maxDays - 1)) req.end_date + 1) prev2 with
    | nil =>
      rw [hrest] at hc
      obtain rfl := (Option.some.inj hc).symm
      by_cases hnext : min (cur + (maxDays - 1)) req.end_date + 1
          ≤ req.end_date
      · exact absurd hrest
          (chunkLoop_ne_nil gen ctx req maxDays fuel _ prev2 (by omega) hnext)
      · show min (cur + (maxDays - 1)) req.end_date = req.end_date
        omega
    | cons r rs =>
      rw [hrest] at hc
      rw [List.getLast?_cons_cons] at hc
      have hnext : min (cur + (maxDays - 1)) req.end_date + 1
          ≤ req.end_date := by
        by_contra hgt
        have h0 := chunkLoop_of_gt gen ctx req maxDays fuel
          (min (cur + (maxDays - 1)) req.end_date + 1) prev2 (by omega)
        rw [h0] at hrest
        cases hrest
      exact ih (min (cur + (maxDays - 1)) req.end_date + 1) prev2
        (by omega) hnext c (by rw [hrest]; exact hc)

/-- A two-element `"\n"`-join with an empty middle is a blank-line
separator. -/
lemma intercalate_blank_line (a b : String) :
    String.intercalate "\n" [a, "", b] = a ++ "\n\n" ++ b := by
  simp only [String.intercalate, String.intercalate.go, String.append_empty]
  rw [String.append_assoc a "\n" "\n"]
  rfl

/-- A request spanning 30 days (day ordinals 0 through 29). -/
def thirtyDayReq : MealPlanRequest :=
  { counselor_profile := .medical, patient_id := 7, start_date := 0
    end_date := 29, target_calories := some 1800, preferred_foods := []
    avoided_foods := [], snack_policy := "포함", special_notes := "" }

/-- C4: when the request fits in `max_chunk_days` the backend is invoked
exactly once with the full request and no continuity context; otherwise the
backend calls form a non-empty partition of `[start, end]` — first chunk
starts at `start` with no context, last chunk ends at `end`, adjacent chunks
are consecutive with the previous chunk's output passed as context, every
chunk is within range and spans at most `max_chunk_days` days (exactly
`max_chunk_days` unless it is the final chunk), and each chunk request equals
the original except for its dates; for `max_chunk_days = 14` and a 30-day
span the chunks are exactly (0,13), (14,27), (28,29) of lengths 14, 14, 2. -/
theorem c4_chunked_generation (gen : Gen) (ctx : String) (maxChunkDays : Nat)
    (req : MealPlanRequest) (hm : 1 ≤ maxChunkDays)
    (hse : req.start_date ≤ req.end_date) :
    (req.duration_days ≤ maxChunkDays →
      generateSequenceCalls gen ctx maxChunkDays req
        = [{ request := req, previous_plan := none, output := gen ctx req none }]) ∧
    (maxChunkDays < req.duration_days →
      generateSequenceCalls gen ctx maxChunkDays req ≠ [] ∧
      (∀ c ∈ (generateSequenceCalls gen ctx maxChunkDays req).head?,
        c.request.start_date = req.start_date ∧ c.previous_plan = none) ∧
      (∀ c ∈ (generateSequenceCalls gen ctx maxChunkDays req).getLast?,
        c.request.end_date = req.end_date) ∧
      List.Chain'
        (fun a b => b.request.start_date = a.request.end_date + 1 ∧
          b.previous_plan = some a.output)
        (generateSequenceCalls gen ctx maxChunkDays req) ∧
      (∀ c ∈ generateSequenceCalls gen ctx maxChunkDays req,
        c.request.start_date ≤ c.request.end_date ∧
        c.request.end_date ≤ req.end_date ∧
        c.request.end_date + 1 - c.request.start_date ≤ maxChunkDays ∧
        (c.request.end_date < req.end_date →
          c.request.end_date + 1 - c.request.start_date = maxChunkDays) ∧
        c.request = { req with start_date := c.request.start_date, end_date := c.request.end_date })) ∧
    ((generateSequenceCalls gen ctx 14 thirtyDayReq).map fun c =>
        (c.request.start_date, c.request.end_date,
          c.request.end_date + 1 - c.request.start_date))
      = [(0, 13, 14), (14, 27, 14), (28, 29, 2)] := by
  have hmax : max 1 maxChunkDays = maxChunkDays := max_eq_right hm
  refine ⟨?_, ?_, by rfl⟩
  · intro hle
    simp only [generateSequenceCalls]
    rw [hmax, if_pos hle]
  · intro hgt
    have hcalls : generateSequenceCalls gen ctx maxChunkDays req
        = chunkLoop gen ctx req maxChunkDays req.duration_days
            req.start_date none := by
      simp only [generateSequenceCalls]
      rw [hmax, if_neg (by omega)]
    rw [hcalls]
    have hfuel : req.end_date + 1 - req.start_date ≤ req.duration_days :=
      le_refl _
    refine ⟨chunkLoop_ne_nil gen ctx req maxChunkDays _ _ none hfuel hse,
      ?_, ?_, chunkLoop_chain gen ctx req maxChunkDays _ _ none, ?_⟩
    · intro c hc
      exact chunkLoop_head gen ctx req maxChunkDays _ _ none c
        (Option.mem_def.mp hc)
    · intro c hc
      exact chunkLoop_last gen ctx req maxChunkDays hm _ _ none hfuel hse c
        hc
    · intro c hc
      have h2 := chunkLoop_mem gen ctx req maxChunkDays hm _ _ none hfuel c
        hc
      exact ⟨h2.2.1, h2.2.2.1, h2.2.2.2.1, h2.2.2.2.2.1, h2.2.2.2.2.2⟩

/-- C9: in the multi-chunk case the merged markdown is the chunk outputs in
date order, each prefixed by a header naming its sub-range and joined by a
blank line, and the metadata records the chunk count and the configured
maximum chunk span as strings. -/
theorem c9_merged_markdown (gen : Gen) (ctx : String) (maxChunkDays : Nat)
    (req : MealPlanRequest) (hm : 1 ≤ maxChunkDays)
    (hgt : maxChunkDays < req.duration_days) :
    (generateSequence gen ctx maxChunkDays req).markdown
      = String.intercalate "\n\n"
          ((generateSequenceCalls gen ctx maxChunkDays req).map fun c =>
            sectionHeader c.request.start_date c.request.end_date ++ "\n\n"
              ++ c.output) ∧
    List.Chain' (fun a b => b.request.start_date = a.request.end_date + 1)
      (generateSequenceCalls gen ctx maxChunkDays req) ∧
    (generateSequence gen ctx maxChunkDays req).metadata.lookup "chunks"
      = some (toString (generateSequenceCalls gen ctx maxChunkDays
          req).length) ∧
    (generateSequence gen ctx maxChunkDays req).metadata.lookup
        "chunk_span_days"
      = some (toString maxChunkDays) := by
  have hmax : max 1 maxChunkDays = maxChunkDays := max_eq_right hm
  have hcalls : generateSequenceCalls gen ctx maxChunkDays req
      = chunkLoop gen ctx req maxChunkDays req.duration_days
          req.start_date none := by
    simp only [generateSequenceCalls]
    rw [hmax, if_neg (by omega)]
  have hseq : generateSequence gen ctx maxChunkDays req
      = { markdown := String.intercalate "\n\n"
            ((chunkLoop gen ctx req maxChunkDays req.duration_days
              req.start_date none).map fun seg =>
                String.intercalate "\n"
                  [sectionHeader seg.request.start_date
                    seg.request.end_date, "", seg.output])
          start_date := req.start_date
          end_date := req.end_date
          patient_id := req.patient_id
          mode := "create"
          metadata := [("status", "created"),
            ("chunks", toString (chunkLoop gen ctx req maxChunkDays
              req.duration_days req.start_date none).length),
            ("chunk_span_days", toString maxChunkDays)] } := by
    simp only [generateSequence]
    rw [hmax, if_neg (by omega)]
  refine ⟨?_, ?_, ?_, ?_⟩
  · rw [hseq, hcalls]
    exact congrArg (String.intercalate "\n\n")
      (List.map_congr_left fun c _ => intercalate_blank_line _ _)
  · rw [hcalls]
    exact (chunkLoop_chain gen ctx req maxChunkDays _ _ none).imp
      fun a b h => h.1
  · rw [hseq, hcalls]
    simp [List.lookup]
  · rw [hseq]
    simp [List.lookup]

/-- A backend stub returning a fixed markdown text. -/
def constGen : Gen := fun _ _ _ => "식단"

/-- A request spanning five days (ordinals 1 through 5). -/
def fiveDayReq : MealPlanRequest :=
  { counselor_profile := .medical, patient_id := 1, start_date := 1
    end_date := 5, target_calories := none, preferred_foods := []
    avoided_foods := [], snack_policy := "포함", special_notes := "" }

/-- Witness for C4: a five-day request under a 14-day span is sent to the
backend once, whole, with no continuity context. -/
theorem c4_chunked_generation_witness :
    generateSequenceCalls constGen "환자" 14 fiveDayReq
      = [{ request := fiveDayReq, previous_plan := none, output := constGen "환자" fiveDayReq none }] :=
  (c4_chunked_generation constGen "환자" 14 fiveDayReq (by decide)
    (by decide)).1 (by decide)

/-- Witness for C9 on a five-day request split into 2-day chunks. -/
theorem c9_merged_markdown_witness :
    (generateSequence constGen "환자" 2 fiveDayReq).markdown
      = String.intercalate "\n\n"
          ((generateSequenceCalls constGen "환자" 2 fiveDayReq).map fun c =>
            sectionHeader c.request.start_date c.request.end_date ++ "\n\n"
              ++ c.output) ∧
    List.Chain' (fun a b => b.request.start_date = a.request.end_date + 1)
      (generateSequenceCalls constGen "환자" 2 fiveDayReq) ∧
    (generateSequence constGen "환자" 2 fiveDayReq).metadata.lookup "chunks"
      = some (toString (generateSequenceCalls constGen "환자" 2
          fiveDayReq).length) ∧
    (generateSequence constGen "환자" 2 fiveDayReq).metadata.lookup
        "chunk_span_days"
      = some (toString 2) :=
  c9_merged_markdown constGen "환자" 2 fiveDayReq (by decide) (by decide)

end MetabolicCounselor
